import Mathlib

/-!
Verification development for the Moveworks data-synchronization pipeline
(`main-script.py`). The Python source is shallowly embedded: JSON-like
values become the inductive `JValue`, Python dicts become association
lists with first-match lookup, the paginated fetch loop becomes a
fuel-indexed step function over an abstract response stream, and the
warehouse becomes a finite map from table names to lists of rows.
-/

set_option autoImplicit false

namespace Moveworks

/-- Values appearing in source records: JSON scalars, objects and arrays. -/
inductive JValue where
  | str (s : String)
  | num (n : Int)
  | bool (b : Bool)
  | null
  | obj (fields : List (String × JValue))
  | arr (elems : List JValue)

/-- A raw or flattened record: a Python dict embedded as an association
list with insertion order preserved and keys unique. -/
abbrev Record := List (String × JValue)

/-- Python single-quote character, used by `str` renderings of containers. -/
def sq : String := String.singleton (Char.ofNat 39)

mutual

/-- Embedding of Python `str(value)` for the value shapes of `JValue`. -/
def pyStr : JValue → String
  | .str s => s
  | .num n => toString n
  | .bool b => if b then "True" else "False"
  | .null => "None"
  | .obj fs => "\x7b" ++ pyStrFields fs ++ "\x7d"
  | .arr es => "[" ++ pyStrElems es ++ "]"

/-- Renders the fields of a dict for `pyStr`. -/
def pyStrFields : List (String × JValue) → String
  | [] => ""
  | [(k, v)] => sq ++ k ++ sq ++ ": " ++ pyStr v
  | (k, v) :: rest => sq ++ k ++ sq ++ ": " ++ pyStr v ++ ", " ++ pyStrFields rest

/-- Renders the elements of a list for `pyStr`. -/
def pyStrElems : List JValue → String
  | [] => ""
  | [v] => pyStr v
  | v :: rest => pyStr v ++ ", " ++ pyStrElems rest

end

/-- Escapes quote and backslash characters the way `json.dumps` does. -/
def jsonQuote (s : String) : String :=
  "\"" ++ String.join (s.data.map (fun c =>
    if c = Char.ofNat 34 then "\\" ++ String.singleton (Char.ofNat 34)
    else if c = Char.ofNat 92 then "\\\\"
    else String.singleton c)) ++ "\""

mutual

/-- Embedding of `json.dumps` on `JValue`. -/
def jsonDumps : JValue → String
  | .str s => jsonQuote s
  | .num n => toString n
  | .bool b => if b then "true" else "false"
  | .null => "null"
  | .obj fs => "\x7b" ++ jsonFields fs ++ "\x7d"
  | .arr es => "[" ++ jsonElems es ++ "]"

/-- Serializes the fields of an object for `jsonDumps`. -/
def jsonFields : List (String × JValue) → String
  | [] => ""
  | [(k, v)] => jsonQuote k ++ ": " ++ jsonDumps v
  | (k, v) :: rest => jsonQuote k ++ ": " ++ jsonDumps v ++ ", " ++ jsonFields rest

/-- Serializes the elements of an array for `jsonDumps`. -/
def jsonElems : List JValue → String
  | [] => ""
  | [v] => jsonDumps v
  | v :: rest => jsonDumps v ++ ", " ++ jsonElems rest

end

/-- Python dict item assignment `d[k] = v`: replace the value of an existing
key in place, otherwise append the new key at the end. -/
def assocSet : Record → String → JValue → Record
  | [], k, v => [(k, v)]
  | (k0, v0) :: rest, k, v =>
    if k0 = k then (k, v) :: rest else (k0, v0) :: assocSet rest k v

/-- Python dict `d.pop(k, default)`: remove the (first) entry with key `k`. -/
def popKey : Record → String → Record
  | [], _ => []
  | (k0, v0) :: rest, k => if k0 = k then rest else (k0, v0) :: popKey rest k

/-- The keys of a record, in order. -/
def keysOf (r : Record) : List String := r.map Prod.fst

/-- From `flatten_record`: a list-valued nested detail value is joined into a
single comma-delimited string (`value = ','.join(map(str, value))`);
any other value is stored unchanged. -/
def joinIfList : JValue → JValue
  | .arr es => .str (String.intercalate "," (es.map pyStr))
  | v => v

/-- Embedding of `MoveworksDataPipeline.flatten_record`: copy the record;
if the `detail` field is a dict, pop it and emit one `detail_<key>` field per
key (joining list values); if the `external_ids` field is a list, pop it and
emit one `external_id_<i>_<key>` field per dict element and key. -/
def flatten_record (record : Record) : Record :=
  let flat := record
  let flat :=
    match flat.lookup "detail" with
    | some (.obj dfields) =>
      let flat := popKey flat "detail"
      dfields.foldl
        (fun (acc : Record) (p : String × JValue) =>
          assocSet acc ("detail_" ++ p.1) (joinIfList p.2)) flat
    | _ => flat
  match flat.lookup "external_ids" with
  | some (.arr exts) =>
    let flat := popKey flat "external_ids"
    exts.enum.foldl (fun (acc : Record) (ie : Nat × JValue) =>
      match ie.2 with
      | .obj fs =>
        fs.foldl
          (fun (acc2 : Record) (p : String × JValue) =>
            assocSet acc2 ("external_id_" ++ toString ie.1 ++ "_" ++ p.1) p.2) acc
      | _ => acc) flat
  | _ => flat

/-- From `clean_illegal_chars`: the character classes stripped from every
string cell (`\x00`-`\x08`, `\x0B`, `\x0C`, `\x0E`-`\x1F`). -/
def isIllegalChar (c : Char) : Bool :=
  (c.toNat ≤ 8) || c.toNat = 11 || c.toNat = 12 || (14 ≤ c.toNat && c.toNat ≤ 31)

/-- Embedding of the cell-level function inside `clean_illegal_chars`:
strings lose their illegal characters, every other value passes through. -/
def remove_illegal_chars : JValue → JValue
  | .str s => .str (String.mk (s.data.filter (fun c => !isIllegalChar c)))
  | v => v

/-- Embedding of `clean_illegal_chars` on one record (the `applymap` visits
each cell of the DataFrame). -/
def cleanRecord (r : Record) : Record :=
  r.map (fun p => (p.1, remove_illegal_chars p.2))

/-- From the retry configuration: `MAX_RETRIES = 5`. -/
def MAX_RETRIES : Nat := 5

/-- The fixed endpoint processing order (`ENDPOINTS`). -/
def ENDPOINTS : List String :=
  ["interactions", "conversations", "plugin-calls", "plugin-resources", "users"]

/-- One HTTP response observed by `fetch_data`, classified exactly the way
the source branches on `response.status_code`: 200 with a page payload and
an optional `@odata.nextLink`, 429, a retryable status in
`(500, 502, 503, 504)`, any other status, or a transport exception. -/
inductive Resp where
  | ok (value : List Record) (nextLink : Option String)
  | status429
  | status5xx
  | otherStatus
  | exn

/-- The loop state of `fetch_data`: the pending request URL (`None` once the
loop should stop), the flattened records accumulated so far, the consecutive
transient-error retry counter, and the page counter. -/
structure FetchState where
  url : Option String
  data : List Record
  retries : Nat
  pageCount : Nat

/-- The result of processing one response inside the `while url` loop:
either continue with an updated state or stop with the data collected. -/
inductive FetchOutcome where
  | next (s : FetchState)
  | done (data : List Record)

/-- Embedding of one iteration of the `while url` loop of `fetch_data`:
a 200 page with records appends the flattened records, follows the next
link, resets `retries` to 0 and bumps the page counter; an empty 200 page
stops; 429 sleeps and leaves the state untouched (the same URL is retried);
a retryable 5xx increments `retries` while `retries < MAX_RETRIES` and
otherwise aborts; any other status or an exception aborts. -/
def fetchStep (s : FetchState) : Resp → FetchOutcome
  | .ok value nextLink =>
    match value with
    | [] => .done s.data
    | v :: vs =>
      .next
        ⟨nextLink, s.data ++ ((v :: vs).map flatten_record), 0, s.pageCount + 1⟩
  | .status429 => .next s
  | .status5xx =>
    if s.retries < MAX_RETRIES then .next ⟨s.url, s.data, s.retries + 1, s.pageCount⟩
    else .done s.data
  | .otherStatus => .done s.data
  | .exn => .done s.data

/-- Fuel-indexed embedding of the `while url` loop of `fetch_data`. The
`stream` assigns a response to each request issued; `i` counts requests.
`none` means the loop did not finish within `fuel` iterations, so a result
for every fuel value being `none` models divergence. -/
def fetchLoop : Nat → (Nat → Resp) → Nat → FetchState → Option (List Record)
  | 0, _, _, _ => none
  | fuel + 1, stream, i, s =>
    match s.url with
    | none => some s.data
    | some _ =>
      match fetchStep s (stream i) with
      | .next s2 => fetchLoop fuel stream (i + 1) s2
      | .done d => some d

/-- The initial loop state of `fetch_data`: the endpoint URL, no data,
`retries = 0`, `page_count = 0`. -/
def initFetchState (u : String) : FetchState := ⟨some u, [], 0, 0⟩

/-- Embedding of `fetch_data`: run the pagination loop and clean illegal
characters from every record of the resulting frame. -/
def fetch_data (fuel : Nat) (stream : Nat → Resp) (u : String) :
    Option (List Record) :=
  (fetchLoop fuel stream 0 (initFetchState u)).map (List.map cleanRecord)

/-- Divergence of the fetch loop on a response stream: no amount of fuel
finishes the loop from the initial state. -/
def fetchDivergesOn (stream : Nat → Resp) (u : String) : Prop :=
  ∀ fuel : Nat, fetchLoop fuel stream 0 (initFetchState u) = none

/-- From `run_daily_sync` / `run_initial_load`: the table name derived from
an endpoint, `MOVEWORKS_` plus the endpoint with each dash replaced by an
underscore and every character uppercased
(`endpoint.replace('-', '_').upper()`, applied characterwise since both
operations act on single characters). -/
def tableNameOf (endpoint : String) : String :=
  "MOVEWORKS_" ++ String.mk (endpoint.data.map (fun c =>
    (if c = Char.ofNat 45 then Char.ofNat 95 else c).toUpper))

/-- The column lists of the fixed DDL templates in `get_table_schema`, in
declaration order. -/
def tableColumns : String → List String
  | "MOVEWORKS_CONVERSATIONS" =>
    ["LAST_UPDATED_AT", "ID", "USER_ID", "CREATED_AT", "ROUTE",
     "PRIMARY_DOMAIN", "LOAD_TIMESTAMP"]
  | "MOVEWORKS_INTERACTIONS" =>
    ["LAST_UPDATED_AT", "CONVERSATION_ID", "USER_ID", "ID", "CREATED_AT",
     "PLATFORM", "TYPE", "LABEL", "PARENT_INTERACTION_ID", "DETAILS",
     "ACTOR", "LOAD_TIMESTAMP"]
  | "MOVEWORKS_PLUGIN_CALLS" =>
    ["LAST_UPDATED_AT", "CONVERSATION_ID", "USER_ID", "INTERACTION_ID",
     "ID", "CREATED_AT", "PLUGIN_UPDATE_TIME", "PLUGIN_NAME",
     "PLUGIN_STATUS", "SERVED", "USED", "LOAD_TIMESTAMP"]
  | "MOVEWORKS_PLUGIN_RESOURCES" =>
    ["ID", "CONVERSATION_ID", "INTERACTION_ID", "PLUGIN_CALL_ID", "USER_ID",
     "TYPE", "RESOURCE_ID", "DETAILS", "CITED", "LAST_UPDATED_AT",
     "CREATED_AT", "LOAD_TIMESTAMP"]
  | "MOVEWORKS_USERS" =>
    ["ID", "FIRST_NAME", "LAST_NAME", "EMAIL_ADDR",
     "USER_PREFERRED_LANGUAGE", "HAS_ACCESS_TO_BOT", "EXTERNAL_IDS",
     "LAST_UPDATED_AT", "FIRST_INTERACTION_AT", "LAST_INTERACTION_AT",
     "LOAD_TIMESTAMP"]
  | _ => []

/-- The per-endpoint `column_mapping` literals of
`transform_dataframe_for_schema`, in source order. -/
def columnMapping : String → List (String × String)
  | "conversations" =>
    [("last_updated_time", "LAST_UPDATED_AT"), ("id", "ID"),
     ("user_id", "USER_ID"), ("created_time", "CREATED_AT"),
     ("route", "ROUTE"), ("primary_domain", "PRIMARY_DOMAIN")]
  | "interactions" =>
    [("last_updated_time", "LAST_UPDATED_AT"),
     ("conversation_id", "CONVERSATION_ID"), ("user_id", "USER_ID"),
     ("id", "ID"), ("created_time", "CREATED_AT"), ("platform", "PLATFORM"),
     ("type", "TYPE"), ("label", "LABEL"),
     ("parent_interaction_id", "PARENT_INTERACTION_ID"),
     ("DETAILS", "DETAILS"), ("actor", "ACTOR")]
  | "plugin-calls" =>
    [("last_updated_time", "LAST_UPDATED_AT"),
     ("conversation_id", "CONVERSATION_ID"), ("user_id", "USER_ID"),
     ("interaction_id", "INTERACTION_ID"), ("id", "ID"),
     ("created_time", "CREATED_AT"),
     ("plugin_update_time", "PLUGIN_UPDATE_TIME"),
     ("plugin_name", "PLUGIN_NAME"), ("plugin_status", "PLUGIN_STATUS"),
     ("served", "SERVED"), ("used", "USED")]
  | "plugin-resources" =>
    [("id", "ID"), ("conversation_id", "CONVERSATION_ID"),
     ("interaction_id", "INTERACTION_ID"),
     ("plugin_call_id", "PLUGIN_CALL_ID"), ("user_id", "USER_ID"),
     ("type", "TYPE"), ("resource_id", "RESOURCE_ID"),
     ("DETAILS", "DETAILS"), ("cited", "CITED"),
     ("last_updated_time", "LAST_UPDATED_AT"),
     ("created_time", "CREATED_AT")]
  | "users" =>
    [("id", "ID"), ("first_name", "FIRST_NAME"), ("last_name", "LAST_NAME"),
     ("email_addr", "EMAIL_ADDR"),
     ("user_preferred_language", "USER_PREFERRED_LANGUAGE"),
     ("access_to_bot", "HAS_ACCESS_TO_BOT"),
     ("EXTERNAL_IDS", "EXTERNAL_IDS"),
     ("last_updated_time", "LAST_UPDATED_AT"),
     ("first_interaction_time", "FIRST_INTERACTION_AT"),
     ("latest_interaction_time", "LAST_INTERACTION_AT")]
  | _ => []

/-- Pandas `pd.notna` on a cell: `none` models a missing cell (NaN) and
`JValue.null` a stored Python `None`; both are na. -/
def pdNotNa : Option JValue → Bool
  | none => false
  | some .null => false
  | some _ => true

/-- Adding a DataFrame column: a new name is appended, an existing name is
kept in place (assignment overwrites its values). -/
def updCol (cols : List String) (c : String) : List String :=
  if c ∈ cols then cols else cols ++ [c]

/-- Assigning a DataFrame column at the value level. -/
def updRow (row : String → Option JValue) (c : String) (v : Option JValue) :
    String → Option JValue :=
  fun c2 => if c2 = c then v else row c2

/-- From `transform_dataframe_for_schema` (interactions branch): the
`detail_*` column names of the input frame. -/
def detailColsOf (cols : List String) : List String :=
  cols.filter (fun c => c.startsWith "detail_")

/-- From the users branch: the `external_id_*` column names. -/
def externalIdColsOf (cols : List String) : List String :=
  cols.filter (fun c => c.startsWith "external_id_")

/-- Embedding of `create_details_json` (interactions branch): collect the
non-na `detail_*` cells of the row into a dict keyed by the stripped column
name and serialize it, or null when nothing remains. The plugin-resources
branch computes the same value with a dict comprehension. -/
def create_details_json (detailCols : List String)
    (row : String → Option JValue) : Option JValue :=
  let pairs := detailCols.filterMap (fun c =>
    if pdNotNa (row c) then (row c).map (fun v => (c.replace "detail_" "", v))
    else none)
  if pairs.isEmpty then none else some (.str (jsonDumps (.obj pairs)))

/-- Embedding of `process_original_detail` (interactions branch, taken when
no `detail_*` column exists but a `detail` column does): `None` and `{}`
become null, dicts are serialized, strings pass through, anything else is
rendered with `str`; a missing cell is a pandas NaN, whose `str` is the
string `nan`. -/
def process_original_detail : Option JValue → Option JValue
  | none => some (.str "nan")
  | some .null => none
  | some (.obj []) => none
  | some (.obj fs) => some (.str (jsonDumps (.obj fs)))
  | some (.str s) => some (.str s)
  | some v => some (.str (pyStr v))

/-- The plugin-resources fallback on the raw `detail` column
(`json.dumps(x) if x is not None and x != {} else None`); a NaN cell passes
the guards and serializes to the JSON literal `NaN`. -/
def prOriginalDetail : Option JValue → Option JValue
  | none => some (.str "NaN")
  | some .null => none
  | some (.obj []) => none
  | some v => some (.str (jsonDumps v))

/-- Python `str` of a list of cell values (the users branch stores
`str([...])`, which renders elements with `repr`). -/
def pyStrOfList (vals : List JValue) : String :=
  "[" ++ String.intercalate ", "
    (vals.map (fun v =>
      match v with
      | .str s => sq ++ s ++ sq
      | v2 => pyStr v2)) ++ "]"

/-- Embedding of the users-branch `EXTERNAL_IDS` recombination: the non-na
`external_id_*` cells of the row as a display string, or null when the
collected list is empty. -/
def usersExternalIds (extCols : List String)
    (row : String → Option JValue) : Option JValue :=
  let vals := extCols.filterMap (fun c =>
    if pdNotNa (row c) then row c else none)
  if vals.isEmpty then none else some (.str (pyStrOfList vals))

/-- The column set and cell function of `df_transformed` right before the
`column_mapping` projection: the input frame plus the `LOAD_TIMESTAMP`
stamp and the per-endpoint derived column (`DETAILS` or `EXTERNAL_IDS`). -/
def transformStage (endpoint : String) (cols : List String)
    (row : String → Option JValue) (ts : JValue) :
    List String × (String → Option JValue) :=
  let cols1 := updCol cols "LOAD_TIMESTAMP"
  let row1 := updRow row "LOAD_TIMESTAMP" (some ts)
  if endpoint = "interactions" then
    let dcols := detailColsOf cols
    if !dcols.isEmpty then
      (updCol cols1 "DETAILS", updRow row1 "DETAILS" (create_details_json dcols row))
    else if "detail" ∈ cols then
      (updCol cols1 "DETAILS",
       updRow row1 "DETAILS" (process_original_detail (row "detail")))
    else
      (updCol cols1 "DETAILS", updRow row1 "DETAILS" none)
  else if endpoint = "plugin-resources" then
    let dcols := detailColsOf cols
    if !dcols.isEmpty then
      (updCol cols1 "DETAILS", updRow row1 "DETAILS" (create_details_json dcols row))
    else if "detail" ∈ cols then
      (updCol cols1 "DETAILS",
       updRow row1 "DETAILS" (prOriginalDetail (row "detail")))
    else
      (updCol cols1 "DETAILS", updRow row1 "DETAILS" none)
  else if endpoint = "users" then
    let ecols := externalIdColsOf cols
    if !ecols.isEmpty then
      (updCol cols1 "EXTERNAL_IDS",
       updRow row1 "EXTERNAL_IDS" (usersExternalIds ecols row))
    else (cols1, row1)
  else (cols1, row1)

/-- The `result_df` projection loop of `transform_dataframe_for_schema`:
one output column per mapping entry, copied when the source column exists
and null otherwise, followed by the `LOAD_TIMESTAMP` stamp. -/
def mapRow (mapping : List (String × String)) (colsT : List String)
    (rowT : String → Option JValue) (ts : JValue) :
    List (String × Option JValue) :=
  (mapping.map (fun p => (p.2, if p.1 ∈ colsT then rowT p.1 else none)))
    ++ [("LOAD_TIMESTAMP", some ts)]

/-- Embedding of `transform_dataframe_for_schema` on one row of the frame:
`cols` is the column set of the input DataFrame, `row` the cell lookup of
the row, `ts` the `current_timestamp` captured at transform time. An
endpoint outside the five handled ones returns `df_transformed`
unprojected. -/
def transform_dataframe_for_schema (endpoint : String) (cols : List String)
    (row : String → Option JValue) (ts : JValue) :
    List (String × Option JValue) :=
  let st := transformStage endpoint cols row ts
  if endpoint = "conversations" ∨ endpoint = "interactions" ∨
     endpoint = "plugin-calls" ∨ endpoint = "plugin-resources" ∨
     endpoint = "users" then
    mapRow (columnMapping endpoint) st.1 st.2 ts
  else st.1.map (fun c => (c, st.2 c))

/-- A transformed row as staged into the warehouse: its primary-key value
(the `ID` column, per `get_primary_key_column`), the remaining non-key
columns, and the `LOAD_TIMESTAMP` the table stamps at write time. -/
structure Row where
  id : String
  payload : List (String × JValue)
  loadTs : Nat

/-- A warehouse table: the list of its rows. -/
abbrev Table := List Row

/-- The warehouse schema state: table name to table, `none` when the table
does not exist. -/
abbrev DB := String → Option Table

/-- The empty warehouse. -/
def dbEmpty : DB := fun _ => none

/-- Executing a CREATE ... TABLE statement: the name now maps to the given
rows (an existing table of that name is replaced). -/
def dbSet (db : DB) (name : String) (t : Table) : DB :=
  fun m => if m = name then some t else db m

/-- Executing `DROP TABLE IF EXISTS name`. -/
def dbDrop (db : DB) (name : String) : DB :=
  fun m => if m = name then none else db m

/-- Embedding of `create_table_if_not_exists`: it formats the predefined
template of `get_table_schema` and executes it. Every template begins with
`CREATE OR REPLACE TABLE`, so executing it replaces any existing table of
that name with a fresh empty one. -/
def create_table_if_not_exists (db : DB) (tableName : String) : DB :=
  dbSet db tableName []

/-- The leading DDL keywords shared by every template in
`get_table_schema` (what `create_temp_table` rewrites to
`CREATE OR REPLACE TEMPORARY TABLE`). -/
def ddlCreateCommand : String := "CREATE OR REPLACE TABLE"

/-- The staging table name built in `upsert_data_to_snowflake`:
`TEMP_<table>_<int(time.time())>`. -/
def tempNameOf (tableName : String) (epoch : Nat) : String :=
  "TEMP_" ++ tableName ++ "_" ++ toString epoch

/-- Embedding of the `MERGE` statement built in `perform_upsert`: source
rows matching a target row on the primary key update it in place (all
non-key columns plus a fresh `LOAD_TIMESTAMP`); source rows without a match
are inserted with a fresh `LOAD_TIMESTAMP`. Returns the new target rows and
the (inserted, updated) statistics reported by the warehouse. -/
def mergeTables (target source : List Row) (now : Nat) :
    List Row × Nat × Nat :=
  let updatedRows := target.map (fun tr =>
    match source.find? (fun sr => sr.id == tr.id) with
    | some sr => ⟨tr.id, sr.payload, now⟩
    | none => tr)
  let newRows := (source.filter
    (fun sr => !(target.any (fun tr => tr.id == sr.id)))).map
      (fun sr => ⟨sr.id, sr.payload, now⟩)
  let updCount := (target.filter
    (fun tr => source.any (fun sr => sr.id == tr.id))).length
  (updatedRows ++ newRows, newRows.length, updCount)

/-- Failure environment for one upsert call: whether `create_temp_table`
succeeds, whether the `write_pandas` staging write succeeds, and whether
the `MERGE` of `perform_upsert` succeeds. -/
structure UpsertEnv where
  createTempOk : Bool
  writeOk : Bool
  mergeOk : Bool

/-- The environment in which every warehouse call succeeds. -/
def envOk : UpsertEnv := ⟨true, true, true⟩

/-- The outcome of one load call: the warehouse afterwards, the success
flag and row count returned to the caller, and the inserted/updated
statistics logged by `perform_upsert` (zero on non-merge paths). -/
structure LoadResult where
  db : DB
  success : Bool
  nrows : Nat
  inserted : Nat
  updated : Nat

/-- Embedding of `upsert_data_to_snowflake`: create the uniquely named
staging table, bulk-write the batch into it, `MERGE` into the permanent
table, and drop the staging table in the `finally` block on every exit
path (create failure, staging-write failure, merge failure, success). -/
def upsert_data_to_snowflake (env : UpsertEnv) (db : DB)
    (tableName : String) (rows : List Row) (now epoch : Nat) : LoadResult :=
  let temp := tempNameOf tableName epoch
  if !env.createTempOk then
    ⟨dbDrop db temp, false, 0, 0, 0⟩
  else
    let db1 := dbSet db temp []
    if !env.writeOk then
      ⟨dbDrop db1 temp, false, 0, 0, 0⟩
    else
      let db2 := dbSet db1 temp rows
      if !env.mergeOk then
        ⟨dbDrop db2 temp, false, 0, 0, 0⟩
      else
        let target := (db2 tableName).getD []
        let m := mergeTables target rows now
        let db3 := dbSet db2 tableName m.1
        ⟨dbDrop db3 temp, true, m.2.1 + m.2.2, m.2.1, m.2.2⟩

/-- Embedding of `load_data_to_snowflake` on already-transformed rows: an
empty batch returns failure with zero rows; otherwise
`create_table_if_not_exists` runs first (executing the CREATE OR REPLACE
template), then either the initial-load overwrite path, the upsert path, or
the append fallback when upsert is disabled. -/
def load_data_to_snowflake (env : UpsertEnv) (db : DB) (tableName : String)
    (rows : List Row) (isInitialLoad useUpsert : Bool) (now epoch : Nat) :
    LoadResult :=
  match rows with
  | [] => ⟨db, false, 0, 0, 0⟩
  | _ =>
    let db1 := create_table_if_not_exists db tableName
    if isInitialLoad then
      ⟨dbSet db1 tableName rows, true, rows.length, 0, 0⟩
    else if useUpsert then
      upsert_data_to_snowflake env db1 tableName rows now epoch
    else
      ⟨dbSet db1 tableName (((db1 tableName).getD []) ++ rows), true,
        rows.length, 0, 0⟩

/-- The per-endpoint load outcome as seen by the `run_daily_sync` loop:
the load returned `(True, n)`, returned a failure, or raised (both failure
shapes are recorded identically). -/
inductive LoadOutcome where
  | ok (n : Nat)
  | failed
  | raised

/-- One entry of the `load_summary` dict of `run_daily_sync`. -/
structure EntrySummary where
  success : Bool
  rowsLoaded : Nat
deriving DecidableEq

/-- The summary entry recorded for one endpoint: an empty fetch is a
success with zero rows; otherwise the load outcome decides, with
`rows_loaded` forced to 0 on failure. -/
def entryFor (recs : List Record) (lo : LoadOutcome) : EntrySummary :=
  match recs with
  | [] => ⟨true, 0⟩
  | _ =>
    match lo with
    | .ok n => ⟨true, n⟩
    | .failed => ⟨false, 0⟩
    | .raised => ⟨false, 0⟩

/-- Embedding of the endpoint loop of `run_daily_sync` (after the
configuration preconditions pass): every endpoint in the fixed order is
fetched and loaded, a per-endpoint summary is recorded, and the run is
fully successful exactly when the successful-load counter reaches the
endpoint count. -/
def run_daily_sync (fetchRes : String → List Record)
    (loadRes : String → LoadOutcome) :
    Bool × List (String × EntrySummary) :=
  let summary := ENDPOINTS.map (fun e => (e, entryFor (fetchRes e) (loadRes e)))
  let successfulLoads := (summary.filter (fun p => p.2.success)).length
  (successfulLoads == ENDPOINTS.length, summary)

/-- Heap addresses for the object-level model of `flatten_record`. -/
abbrev Addr := Nat

/-- A Python value at the object level: scalars are immediate, dicts and
lists live behind references, capturing the aliasing of `record.copy()`. -/
inductive HVal where
  | vstr (s : String)
  | vint (n : Int)
  | vbool (b : Bool)
  | vnone
  | vref (a : Addr)

/-- A heap object: a dict or a list. -/
inductive HObj where
  | odict (fields : List (String × HVal))
  | olist (elems : List HVal)

/-- The heap: objects indexed by address; allocation appends. -/
abbrev Heap := List HObj

/-- First-match lookup in dict fields. -/
def hfLookup : List (String × HVal) → String → Option HVal
  | [], _ => none
  | (k0, v0) :: rest, k => if k0 = k then some v0 else hfLookup rest k

/-- Dict item assignment at the field-list level: overwrite in place or
append. -/
def hfSet : List (String × HVal) → String → HVal → List (String × HVal)
  | [], k, v => [(k, v)]
  | (k0, v0) :: rest, k, v =>
    if k0 = k then (k, v) :: rest else (k0, v0) :: hfSet rest k v

/-- Dict `pop` at the field-list level: remove the entry. -/
def hfPop : List (String × HVal) → String → List (String × HVal)
  | [], _ => []
  | (k0, v0) :: rest, k => if k0 = k then rest else (k0, v0) :: hfPop rest k

/-- Reading `d[k]` through a dict reference. -/
def dictLookup (h : Heap) (a : Addr) (k : String) : Option HVal :=
  match h[a]? with
  | some (.odict fs) => hfLookup fs k
  | _ => none

/-- Writing `d[k] = v` through a dict reference: mutates exactly the object
at address `a`. -/
def heapDictWrite (h : Heap) (a : Addr) (k : String) (v : HVal) : Heap :=
  match h[a]? with
  | some (.odict fs) => h.set a (.odict (hfSet fs k v))
  | _ => h

/-- `d.pop(k, default)` through a dict reference: mutates exactly the
object at address `a`. -/
def heapDictPop (h : Heap) (a : Addr) (k : String) : Heap :=
  match h[a]? with
  | some (.odict fs) => h.set a (.odict (hfPop fs k))
  | _ => h

/-- Python `str(value)` at the object level, dereferencing containers with
bounded fuel; a pure read of the heap. -/
def pyStrH (h : Heap) : Nat → HVal → String
  | _, .vstr s => s
  | _, .vint n => toString n
  | _, .vbool b => if b then "True" else "False"
  | _, .vnone => "None"
  | 0, .vref _ => ""
  | fuel + 1, .vref a =>
    match h[a]? with
    | some (.odict fs) =>
      "\x7b" ++ String.intercalate ", "
        (fs.map (fun p => sq ++ p.1 ++ sq ++ ": " ++ pyStrH h fuel p.2))
        ++ "\x7d"
    | some (.olist es) =>
      "[" ++ String.intercalate ", " (es.map (pyStrH h fuel)) ++ "]"
    | none => ""

/-- The list-join step of the detail loop at the object level:
`','.join(map(str, value))` when the value references a list. -/
def joinIfListH (h : Heap) (v : HVal) : HVal :=
  match v with
  | .vref a =>
    match h[a]? with
    | some (.olist es) =>
      .vstr (String.intercalate "," (es.map (pyStrH h h.length)))
    | _ => v
  | _ => v

/-- One iteration of the detail loop: write `detail_<key>` into the flat
dict, joining list values. -/
def detailWriteStep (flat : Addr) (acc : Heap) (p : String × HVal) : Heap :=
  heapDictWrite acc flat ("detail_" ++ p.1) (joinIfListH acc p.2)

/-- The detail phase of `flatten_record` at the object level: when
`flat.get("detail")` references a dict, pop it from `flat` and write one
`detail_<key>` entry per field into `flat`. Only the object at `flat` is
written. -/
def flattenDetailPhase (h : Heap) (flat : Addr) : Heap :=
  match dictLookup h flat "detail" with
  | some (.vref da) =>
    match h[da]? with
    | some (.odict dfields) =>
      dfields.foldl (detailWriteStep flat) (heapDictPop h flat "detail")
    | _ => h
  | _ => h

/-- One iteration of the external-ids loop: for a dict element, write one
`external_id_<i>_<key>` entry per key into the flat dict. -/
def extWriteStep (flat : Addr) (acc : Heap) (ie : Nat × HVal) : Heap :=
  match ie.2 with
  | .vref ra =>
    match acc[ra]? with
    | some (.odict fs) =>
      fs.foldl
        (fun (a2 : Heap) (p : String × HVal) =>
          heapDictWrite a2 flat
            ("external_id_" ++ toString ie.1 ++ "_" ++ p.1) p.2) acc
    | _ => acc
  | _ => acc

/-- The external-ids phase of `flatten_record` at the object level: when
`flat.get("external_ids")` references a list, pop it and write one
`external_id_<i>_<key>` entry per dict element and key into `flat`. -/
def flattenExternalPhase (h : Heap) (flat : Addr) : Heap :=
  match dictLookup h flat "external_ids" with
  | some (.vref ea) =>
    match h[ea]? with
    | some (.olist exts) =>
      exts.enum.foldl (extWriteStep flat) (heapDictPop h flat "external_ids")
    | _ => h
  | _ => h

/-- Object-level embedding of `flatten_record`: `flat = record.copy()`
allocates a fresh dict sharing the record values, then the detail and
external-ids phases mutate only that fresh dict. Returns the heap after the
call and the address of `flat`. -/
def heapFlatten (h : Heap) (r : Addr) : Heap × Addr :=
  match h[r]? with
  | some (.odict fields) =>
    let flat := h.length
    let h1 := h ++ [HObj.odict fields]
    let h2 := flattenDetailPhase h1 flat
    let h3 := flattenExternalPhase h2 flat
    (h3, flat)
  | _ => (h, r)

/-- A minimal transformed row with the given primary-key value. -/
def rowOf (i : String) : Row := ⟨i, [], 0⟩

/-- The two-row batch with primary keys u1, u2 used to evaluate Upsert. -/
def c1Batch : List Row := [rowOf "u1", rowOf "u2"]

/-- First Upsert load of the batch into an empty warehouse. -/
def c1FirstRun : LoadResult :=
  load_data_to_snowflake envOk dbEmpty "MOVEWORKS_USERS" c1Batch false true 10 100

/-- Second Upsert load of the same batch into the warehouse the first load
produced. -/
def c1SecondRun : LoadResult :=
  load_data_to_snowflake envOk c1FirstRun.db "MOVEWORKS_USERS" c1Batch false true 20 200

/-- C1: loading the same two-row batch twice leaves 2 rows with distinct
keys and an unchanged row count, but the second run reports 2 inserted and
0 updated, not the claimed 0 inserted / 2 updated: every load executes the
CREATE OR REPLACE template of `get_table_schema` through
`create_table_if_not_exists`, emptying the permanent table before the
MERGE, so nothing is ever matched and updated. -/
theorem c1_second_run_reinserts :
    c1SecondRun.inserted = 2 ∧
    c1SecondRun.updated = 0 ∧
    ¬(c1SecondRun.inserted = 0 ∧ c1SecondRun.updated = 2) ∧
    ((c1SecondRun.db "MOVEWORKS_USERS").getD []).map Row.id = ["u1", "u2"] ∧
    ((c1FirstRun.db "MOVEWORKS_USERS").getD []).length =
      ((c1SecondRun.db "MOVEWORKS_USERS").getD []).length := by
  refine ⟨rfl, rfl, ?_, rfl, rfl⟩
  intro h
  have h1 : c1SecondRun.inserted = 2 := rfl
  rw [h.1] at h1
  exact absurd h1 (by decide)

/-- A warehouse holding one pre-existing row with primary key u0. -/
def c2Db : DB := dbSet dbEmpty "MOVEWORKS_USERS" [rowOf "u0"]

/-- An Upsert load of one row with primary key u1 into that warehouse. -/
def c2Load : LoadResult :=
  load_data_to_snowflake envOk c2Db "MOVEWORKS_USERS" [rowOf "u1"] false true 30 300

/-- C2: a later Upsert load does recreate the permanent table:
`create_table_if_not_exists` runs the CREATE OR REPLACE template on every
load, so the pre-existing row u0, whose key is not in the batch, is gone
afterwards, against the claim that such rows remain. -/
theorem c2_later_load_recreates_table :
    (create_table_if_not_exists c2Db "MOVEWORKS_USERS") "MOVEWORKS_USERS" = some [] ∧
    ((c2Load.db "MOVEWORKS_USERS").getD []).map Row.id = ["u1"] ∧
    "u0" ∉ ((c2Load.db "MOVEWORKS_USERS").getD []).map Row.id := by
  refine ⟨rfl, rfl, ?_⟩
  rw [show ((c2Load.db "MOVEWORKS_USERS").getD []).map Row.id = ["u1"] from rfl]
  decide

/-- C6: a 429 response leaves the loop state, in particular the
consecutive-5xx retry counter and the pending URL, completely unchanged,
and a successfully processed page resets the counter to zero. -/
theorem c6_retry_counter_reset :
    (∀ s : FetchState, fetchStep s Resp.status429 = FetchOutcome.next s) ∧
    (∀ (s : FetchState) (v : Record) (vs : List Record) (link : Option String),
      fetchStep s (Resp.ok (v :: vs) link) =
        FetchOutcome.next
          ⟨link, s.data ++ ((v :: vs).map flatten_record), 0, s.pageCount + 1⟩) :=
  ⟨fun _ => rfl, fun _ _ _ _ => rfl⟩

/-- C8: whatever combination of staging-table creation, staging write and
MERGE succeeds or fails, the uniquely named staging table is dropped by the
time `upsert_data_to_snowflake` returns, and the call succeeds exactly when
all three steps do. -/
theorem c8_staging_dropped_on_every_path :
    ∀ (env : UpsertEnv) (db : DB) (tableName : String) (rows : List Row)
      (now epoch : Nat),
      (upsert_data_to_snowflake env db tableName rows now epoch).db
          (tempNameOf tableName epoch) = none ∧
      (upsert_data_to_snowflake env db tableName rows now epoch).success =
        (env.createTempOk && env.writeOk && env.mergeOk) := by
  intro env db tableName rows now epoch
  obtain ⟨ct, w, m⟩ := env
  cases ct <;> cases w <;> cases m <;>
    simp [upsert_data_to_snowflake, dbDrop, dbSet]

/-- Unfolding the fetch loop when the pending URL exists and the step
continues. -/
theorem fetchLoop_succ_next (fuel i : Nat) (stream : Nat → Resp)
    (s : FetchState) (u : String) (hu : s.url = some u) (s2 : FetchState)
    (h : fetchStep s (stream i) = FetchOutcome.next s2) :
    fetchLoop (fuel + 1) stream i s = fetchLoop fuel stream (i + 1) s2 := by
  simp only [fetchLoop, hu, h]

/-- Unfolding the fetch loop when the pending URL exists and the step
stops. -/
theorem fetchLoop_succ_done (fuel i : Nat) (stream : Nat → Resp)
    (s : FetchState) (u : String) (hu : s.url = some u) (d : List Record)
    (h : fetchStep s (stream i) = FetchOutcome.done d) :
    fetchLoop (fuel + 1) stream i s = some d := by
  simp only [fetchLoop, hu, h]

/-- On a stream of nothing but 429 responses the loop never changes state
and never finishes, whatever the fuel. -/
theorem fetchLoop_all429_none (stream : Nat → Resp)
    (hs : ∀ j : Nat, stream j = Resp.status429) :
    ∀ (fuel i : Nat) (u : String) (d : List Record) (r pc : Nat),
      fetchLoop fuel stream i ⟨some u, d, r, pc⟩ = none := by
  intro fuel
  induction fuel with
  | zero => intro i u d r pc; rfl
  | succ n ih =>
    intro i u d r pc
    rw [fetchLoop_succ_next n i stream _ u rfl _ (by rw [hs i]; rfl)]
    exact ih (i + 1) u d r pc

/-- On a stream of nothing but retryable 5xx responses the loop stops with
its collected data once the retry counter stops growing: from retry count
`r` it needs at most `k + 1` iterations whenever `MAX_RETRIES ≤ r + k`. -/
theorem fetchLoop_all5xx_stops (stream : Nat → Resp)
    (hs : ∀ j : Nat, stream j = Resp.status5xx) :
    ∀ (k r : Nat), MAX_RETRIES ≤ r + k →
      ∀ (i : Nat) (u : String) (d : List Record) (pc : Nat),
        fetchLoop (k + 1) stream i ⟨some u, d, r, pc⟩ = some d := by
  intro k
  induction k with
  | zero =>
    intro r hr i u d pc
    refine fetchLoop_succ_done 0 i stream _ u rfl d ?_
    rw [hs i]
    show (if r < MAX_RETRIES then _ else FetchOutcome.done d) = _
    rw [if_neg (by omega)]
  | succ n ih =>
    intro r hr i u d pc
    by_cases hc : r < MAX_RETRIES
    · rw [fetchLoop_succ_next (n + 1) i stream _ u rfl ⟨some u, d, r + 1, pc⟩
        (by rw [hs i]; show (if r < MAX_RETRIES then _ else _) = _; rw [if_pos hc])]
      exact ih (r + 1) (by omega) (i + 1) u d pc
    · refine fetchLoop_succ_done (n + 1) i stream _ u rfl d ?_
      rw [hs i]
      show (if r < MAX_RETRIES then _ else FetchOutcome.done d) = _
      rw [if_neg hc]

/-- The stream in which the source answers 429 to every request. -/
def c3AllRateLimited : Nat → Resp := fun _ => Resp.status429

/-- C3 counterexample: on a stream answering 429 to every request the fetch
loop never terminates — 429 responses are retried without consuming any
retry credit, so no fixed attempt count bounds them. -/
theorem c3_counterexample_429_diverges :
    fetchDivergesOn c3AllRateLimited "records/users" := by
  intro fuel
  exact fetchLoop_all429_none c3AllRateLimited (fun _ => rfl) fuel 0 _ [] 0 0

/-- C3 (amended): retries of transient 5xx responses are bounded by
`MAX_RETRIES`, so a stream answering 5xx to every request terminates the
fetch (keeping the data collected so far), while a stream answering 429 to
every request is retried forever and the fetch does not terminate. -/
theorem c3_retry_bounds :
    (∀ (stream : Nat → Resp), (∀ j : Nat, stream j = Resp.status5xx) →
      ∀ (i : Nat) (u : String) (d : List Record) (r pc : Nat),
        fetchLoop (MAX_RETRIES + 1) stream i ⟨some u, d, r, pc⟩ = some d) ∧
    (∀ (stream : Nat → Resp), (∀ j : Nat, stream j = Resp.status429) →
      ∀ (fuel i : Nat) (u : String) (d : List Record) (r pc : Nat),
        fetchLoop fuel stream i ⟨some u, d, r, pc⟩ = none) := by
  constructor
  · intro stream hs i u d r pc
    exact fetchLoop_all5xx_stops stream hs MAX_RETRIES r (by omega) i u d pc
  · intro stream hs fuel i u d r pc
    exact fetchLoop_all429_none stream hs fuel i u d r pc

/-- Witness for the amended C3 at concrete streams and states. -/
theorem c3_retry_bounds_witness :
    fetchLoop (MAX_RETRIES + 1) (fun _ => Resp.status5xx) 0
      ⟨some "records/users", [], 0, 0⟩ = some [] ∧
    fetchLoop 42 (fun _ => Resp.status429) 0
      ⟨some "records/users", [], 0, 0⟩ = none :=
  ⟨c3_retry_bounds.1 _ (fun _ => rfl) 0 "records/users" [] 0 0,
   c3_retry_bounds.2 _ (fun _ => rfl) 42 0 "records/users" [] 0 0⟩

/-- The single record of the first page in the C4 scenario. -/
def c4Rec1 : Record := [("id", JValue.str "r1")]

/-- The single record of the second page in the C4 scenario. -/
def c4Rec2 : Record := [("id", JValue.str "r2")]

/-- A response stream: one good page, then five consecutive 5xx responses,
then a final good page. -/
def c4Stream : Nat → Resp := fun i =>
  if i = 0 then Resp.ok [c4Rec1] (some "page2")
  else if i ≤ 5 then Resp.status5xx
  else if i = 6 then Resp.ok [c4Rec2] none
  else Resp.ok [] none

/-- C4 counterexample: after five consecutive 5xx responses the fetch has
not terminated — it retries a sixth time and still collects the second
page, so the returned data is both pages rather than only the page fetched
before the 5xx streak. -/
theorem c4_counterexample_five_not_terminal :
    (c4Stream 1 = Resp.status5xx ∧ c4Stream 2 = Resp.status5xx ∧
     c4Stream 3 = Resp.status5xx ∧ c4Stream 4 = Resp.status5xx ∧
     c4Stream 5 = Resp.status5xx) ∧
    fetchLoop 20 c4Stream 0 (initFetchState "page1") = some [c4Rec1, c4Rec2] ∧
    fetchLoop 20 c4Stream 0 (initFetchState "page1") ≠ some [c4Rec1] := by
  refine ⟨⟨rfl, rfl, rfl, rfl, rfl⟩, rfl, ?_⟩
  intro hEq
  rw [show fetchLoop 20 c4Stream 0 (initFetchState "page1") =
      some [c4Rec1, c4Rec2] from rfl] at hEq
  have h2 := congrArg (fun o => Option.map List.length o) hEq
  simp at h2

/-- C4 (amended): six consecutive 5xx responses — the five retries allowed
by `MAX_RETRIES` plus the attempt that finds the budget exhausted — abort
the entity fetch, and the pages collected before the streak are returned
unchanged. -/
theorem c4_six_5xx_abort :
    ∀ (stream : Nat → Resp) (i : Nat) (u : String) (d : List Record)
      (pc m : Nat),
      (∀ j : Nat, j < 6 → stream (i + j) = Resp.status5xx) →
      fetchLoop (m + 6) stream i ⟨some u, d, 0, pc⟩ = some d := by
  intro stream i u d pc m h
  have h0 : stream i = Resp.status5xx := h 0 (by omega)
  have h1 : stream (i + 1) = Resp.status5xx := h 1 (by omega)
  have h2 : stream (i + 1 + 1) = Resp.status5xx := h 2 (by omega)
  have h3 : stream (i + 1 + 1 + 1) = Resp.status5xx := h 3 (by omega)
  have h4 : stream (i + 1 + 1 + 1 + 1) = Resp.status5xx := h 4 (by omega)
  have h5 : stream (i + 1 + 1 + 1 + 1 + 1) = Resp.status5xx := h 5 (by omega)
  rw [fetchLoop_succ_next (m + 5) i stream _ u rfl ⟨some u, d, 1, pc⟩
      (by rw [h0]; rfl)]
  rw [fetchLoop_succ_next (m + 4) _ stream _ u rfl ⟨some u, d, 2, pc⟩
      (by rw [h1]; rfl)]
  rw [fetchLoop_succ_next (m + 3) _ stream _ u rfl ⟨some u, d, 3, pc⟩
      (by rw [h2]; rfl)]
  rw [fetchLoop_succ_next (m + 2) _ stream _ u rfl ⟨some u, d, 4, pc⟩
      (by rw [h3]; rfl)]
  rw [fetchLoop_succ_next (m + 1) _ stream _ u rfl ⟨some u, d, 5, pc⟩
      (by rw [h4]; rfl)]
  exact fetchLoop_succ_done m _ stream _ u rfl d (by rw [h5]; rfl)

/-- Witness for the amended C4: a concrete stream of six 5xx responses
after a successfully fetched page aborts with that page preserved. -/
theorem c4_six_5xx_abort_witness :
    fetchLoop 11 (fun _ => Resp.status5xx) 1
      ⟨some "page2", [c4Rec1], 0, 1⟩ = some [c4Rec1] :=
  c4_six_5xx_abort (fun _ => Resp.status5xx) 1 "page2" [c4Rec1] 1 5
    (fun _ _ => rfl)

/-- C9: the daily sync is fully successful exactly when every endpoint in
the fixed order succeeded; every endpoint gets a summary entry no matter
which others failed; and an empty fetch is recorded as a success with zero
rows. -/
theorem c9_run_success_iff_all :
    ∀ (fetchRes : String → List Record) (loadRes : String → LoadOutcome),
      ((run_daily_sync fetchRes loadRes).1 = true ↔
        ∀ e ∈ ENDPOINTS, (entryFor (fetchRes e) (loadRes e)).success = true) ∧
      ((run_daily_sync fetchRes loadRes).2.map Prod.fst = ENDPOINTS) ∧
      (∀ e : String, fetchRes e = [] →
        entryFor (fetchRes e) (loadRes e) = ⟨true, 0⟩) := by
  intro fetchRes loadRes
  refine ⟨?_, ?_, ?_⟩
  · show ((((ENDPOINTS.map fun e => (e, entryFor (fetchRes e) (loadRes e))).filter
        (fun p => p.2.success)).length == ENDPOINTS.length) = true) ↔ _
    rw [beq_iff_eq]
    rw [show ENDPOINTS.length =
        (ENDPOINTS.map fun e => (e, entryFor (fetchRes e) (loadRes e))).length
      from (List.length_map _ _).symm]
    rw [List.filter_length_eq_length]
    exact List.forall_mem_map
  · show (ENDPOINTS.map fun e => (e, entryFor (fetchRes e) (loadRes e))).map
      Prod.fst = ENDPOINTS
    rw [List.map_map]
    exact List.map_id ENDPOINTS
  · intro e he
    rw [he]
    rfl

/-- Witness for C9: with every fetch empty, every entry is a success with
zero rows and the run is fully successful. -/
theorem c9_run_success_iff_all_witness :
    (run_daily_sync (fun _ => []) (fun _ => LoadOutcome.raised)).1 = true ∧
    entryFor ((fun (_ : String) => ([] : List Record)) "users")
      ((fun (_ : String) => LoadOutcome.raised) "users") = ⟨true, 0⟩ :=
  ⟨(c9_run_success_iff_all (fun _ => []) (fun _ => LoadOutcome.raised)).1.mpr
      (fun _ _ => rfl),
   (c9_run_success_iff_all (fun _ => []) (fun _ => LoadOutcome.raised)).2.2
      "users" rfl⟩

/-- A mapping entry whose source column is missing from the transformed
frame yields a null output cell. -/
theorem mem_mapRow_of_missing (mapping : List (String × String))
    (colsT : List String) (rowT : String → Option JValue) (ts : JValue)
    (p : String × String) (hp : p ∈ mapping) (hmiss : p.1 ∉ colsT) :
    (p.2, (none : Option JValue)) ∈ mapRow mapping colsT rowT ts := by
  unfold mapRow
  refine List.mem_append_left _ ?_
  have he : (fun q : String × String =>
      (q.2, if q.1 ∈ colsT then rowT q.1 else none)) p = (p.2, none) := by
    simp [hmiss]
  exact he ▸ List.mem_map_of_mem _ hp

/-- Keys of a list of pairs lie in the image of its first projections. -/
theorem key_mem_of_map_fst {α β : Type} (l : List (α × β)) (tgt : List α)
    (h : l.map Prod.fst = tgt) : ∀ q ∈ l, q.1 ∈ tgt := by
  intro q hq
  exact h ▸ List.mem_map_of_mem Prod.fst hq

/-- C5: for each of the five entity types and any input frame, the
transformed row has exactly the target schema column set of the fixed DDL,
in order; any mapping entry whose source column is missing comes out null;
and every output key is a schema column (unmapped source fields are
dropped). -/
theorem c5_schema_mapping_exact :
    ∀ endpoint ∈ ENDPOINTS,
      ∀ (cols : List String) (row : String → Option JValue) (ts : JValue),
        ((transform_dataframe_for_schema endpoint cols row ts).map Prod.fst =
          tableColumns (tableNameOf endpoint)) ∧
        (∀ p ∈ columnMapping endpoint,
          p.1 ∉ (transformStage endpoint cols row ts).1 →
            (p.2, (none : Option JValue)) ∈
              transform_dataframe_for_schema endpoint cols row ts) ∧
        (∀ q ∈ transform_dataframe_for_schema endpoint cols row ts,
          q.1 ∈ tableColumns (tableNameOf endpoint)) := by
  intro endpoint he cols row ts
  simp only [ENDPOINTS, List.mem_cons, List.mem_singleton] at he
  rcases he with rfl | rfl | rfl | rfl | rfl | hfalse
  · exact ⟨rfl, fun p hp hm => mem_mapRow_of_missing _ _ _ _ p hp hm,
      key_mem_of_map_fst _ _ rfl⟩
  · exact ⟨rfl, fun p hp hm => mem_mapRow_of_missing _ _ _ _ p hp hm,
      key_mem_of_map_fst _ _ rfl⟩
  · exact ⟨rfl, fun p hp hm => mem_mapRow_of_missing _ _ _ _ p hp hm,
      key_mem_of_map_fst _ _ rfl⟩
  · exact ⟨rfl, fun p hp hm => mem_mapRow_of_missing _ _ _ _ p hp hm,
      key_mem_of_map_fst _ _ rfl⟩
  · exact ⟨rfl, fun p hp hm => mem_mapRow_of_missing _ _ _ _ p hp hm,
      key_mem_of_map_fst _ _ rfl⟩
  · exact absurd hfalse (by simp)

/-- Witness for C5: mapping a users row with no `email_addr` column yields
a present-but-null `EMAIL_ADDR` cell, and the output column list is
exactly the `MOVEWORKS_USERS` schema. -/
theorem c5_schema_mapping_exact_witness :
    ((transform_dataframe_for_schema "users" ["id"] (fun _ => none)
        JValue.null).map Prod.fst = tableColumns (tableNameOf "users")) ∧
    ("EMAIL_ADDR", (none : Option JValue)) ∈
      transform_dataframe_for_schema "users" ["id"] (fun _ => none)
        JValue.null :=
  ⟨(c5_schema_mapping_exact "users" (by decide) ["id"] (fun _ => none)
      JValue.null).1,
   (c5_schema_mapping_exact "users" (by decide) ["id"] (fun _ => none)
      JValue.null).2.1 ("email_addr", "EMAIL_ADDR") (by decide) (by decide)⟩

/-- Splitting non-membership in a cons key list. -/
theorem not_mem_keys_cons {k k0 : String} {v0 : JValue} {rest : Record}
    (h : k ∉ keysOf ((k0, v0) :: rest)) : k ≠ k0 ∧ k ∉ keysOf rest := by
  rw [show keysOf ((k0, v0) :: rest) = k0 :: keysOf rest from rfl,
    List.mem_cons] at h
  exact ⟨fun he => h (Or.inl he), fun hm => h (Or.inr hm)⟩

/-- Assignment makes the assigned key readable. -/
theorem lookup_assocSet_self (r : Record) (k : String) (v : JValue) :
    List.lookup k (assocSet r k v) = some v := by
  induction r with
  | nil =>
    show List.lookup k [(k, v)] = some v
    exact List.lookup_cons_self
  | cons p rest ih =>
    obtain ⟨k0, v0⟩ := p
    simp only [assocSet]
    by_cases hk : k0 = k
    · rw [if_pos hk]
      exact List.lookup_cons_self
    · rw [if_neg hk, List.lookup_cons,
        show (k == k0) = false from beq_eq_false_iff_ne.mpr (Ne.symm hk)]
      exact ih

/-- Assignment leaves every other key unchanged. -/
theorem lookup_assocSet_ne (r : Record) (k k2 : String) (v : JValue)
    (h : k2 ≠ k) :
    List.lookup k2 (assocSet r k v) = List.lookup k2 r := by
  induction r with
  | nil =>
    show List.lookup k2 [(k, v)] = none
    rw [List.lookup_cons, show (k2 == k) = false from beq_eq_false_iff_ne.mpr h]
    rfl
  | cons p rest ih =>
    obtain ⟨k0, v0⟩ := p
    simp only [assocSet]
    by_cases hk : k0 = k
    · rw [if_pos hk]
      subst hk
      rw [List.lookup_cons, List.lookup_cons,
        show (k2 == k0) = false from beq_eq_false_iff_ne.mpr h]
    · rw [if_neg hk, List.lookup_cons, List.lookup_cons, ih]

/-- Removing one key leaves every other key unchanged. -/
theorem lookup_popKey_ne (r : Record) (k k2 : String) (h : k2 ≠ k) :
    List.lookup k2 (popKey r k) = List.lookup k2 r := by
  induction r with
  | nil => rfl
  | cons p rest ih =>
    obtain ⟨k0, v0⟩ := p
    simp only [popKey]
    by_cases hk : k0 = k
    · rw [if_pos hk]
      subst hk
      rw [List.lookup_cons,
        show (k2 == k0) = false from beq_eq_false_iff_ne.mpr h]
    · rw [if_neg hk, List.lookup_cons, List.lookup_cons, ih]

/-- A key outside the key list reads as absent. -/
theorem lookup_none_of_not_mem_keys (r : Record) (k : String)
    (h : k ∉ keysOf r) : List.lookup k r = none := by
  induction r with
  | nil => rfl
  | cons p rest ih =>
    obtain ⟨k0, v0⟩ := p
    obtain ⟨h1, h2⟩ := not_mem_keys_cons h
    rw [List.lookup_cons, show (k == k0) = false from beq_eq_false_iff_ne.mpr h1]
    exact ih h2

/-- Popping a key erases it from the key list. -/
theorem keysOf_popKey (r : Record) (k : String) :
    keysOf (popKey r k) = (keysOf r).erase k := by
  induction r with
  | nil => rfl
  | cons p rest ih =>
    obtain ⟨k0, v0⟩ := p
    simp only [popKey]
    by_cases hk : k0 = k
    · rw [if_pos hk]
      subst hk
      rw [show keysOf ((k0, v0) :: rest) = k0 :: keysOf rest from rfl,
        List.erase_cons, if_pos (beq_self_eq_true k0)]
    · rw [if_neg hk,
        show keysOf ((k0, v0) :: popKey rest k) = k0 :: keysOf (popKey rest k)
          from rfl,
        show keysOf ((k0, v0) :: rest) = k0 :: keysOf rest from rfl,
        List.erase_cons,
        if_neg (by rw [beq_eq_false_iff_ne.mpr hk]; exact Bool.false_ne_true),
        ih]

/-- Assigning a fresh key appends it to the key list. -/
theorem keysOf_assocSet_of_not_mem (r : Record) (k : String) (v : JValue)
    (h : k ∉ keysOf r) : keysOf (assocSet r k v) = keysOf r ++ [k] := by
  induction r with
  | nil => rfl
  | cons p rest ih =>
    obtain ⟨k0, v0⟩ := p
    obtain ⟨h1, h2⟩ := not_mem_keys_cons h
    simp only [assocSet]
    rw [if_neg (Ne.symm h1),
      show keysOf ((k0, v0) :: assocSet rest k v) =
        k0 :: keysOf (assocSet rest k v) from rfl,
      show keysOf ((k0, v0) :: rest) = k0 :: keysOf rest from rfl,
      ih h2, List.cons_append]

/-- With unique keys, popping a key makes it absent. -/
theorem lookup_popKey_self (r : Record) (k : String)
    (h : (keysOf r).Nodup) : List.lookup k (popKey r k) = none := by
  induction r with
  | nil => rfl
  | cons p rest ih =>
    obtain ⟨k0, v0⟩ := p
    rw [show keysOf ((k0, v0) :: rest) = k0 :: keysOf rest from rfl,
      List.nodup_cons] at h
    simp only [popKey]
    by_cases hk : k0 = k
    · rw [if_pos hk]
      subst hk
      exact lookup_none_of_not_mem_keys rest k0 h.1
    · rw [if_neg hk, List.lookup_cons,
        show (k == k0) = false from beq_eq_false_iff_ne.mpr (Ne.symm hk)]
      exact ih h.2

/-- A `detail_`-prefixed key never equals `detail`. -/
theorem detailKey_ne_detail (t : String) : "detail_" ++ t ≠ "detail" := by
  intro h
  have h2 := congrArg String.length h
  rw [String.length_append] at h2
  rw [show "detail_".length = 7 from rfl, show "detail".length = 6 from rfl]
    at h2
  omega

/-- A `detail_`-prefixed key never equals `external_ids`. -/
theorem detailKey_ne_external (t : String) :
    "detail_" ++ t ≠ "external_ids" := by
  intro h
  have h2 := congrArg String.data h
  rw [String.data_append] at h2
  have h4 : Char.ofNat 100 :: ("etail_".data ++ t.data) =
      "external_ids".data := h2
  injection h4 with h5 h6
  exact absurd h5 (by decide)

/-- Prepending `detail_` is injective on the remaining key. -/
theorem detailKey_inj {t1 t2 : String} (h : "detail_" ++ t1 = "detail_" ++ t2) :
    t1 = t2 := by
  have h2 := congrArg String.data h
  rw [String.data_append, String.data_append] at h2
  exact String.ext (List.append_cancel_left h2)

/-- A record with a two-key detail mapping, a list-valued external_ids
field, and a pre-existing detail_a field. -/
def c7Rec : Record :=
  [("detail", JValue.obj [("a", JValue.num 1), ("b", JValue.num 2)]),
   ("external_ids", JValue.arr [JValue.obj [("k", JValue.str "v")]]),
   ("detail_a", JValue.num 9)]

/-- C7 counterexample: for this record, whose detail field is a mapping
with keys a and b, flatten does not pass every other field through
unchanged: the full evaluation shows the list-valued external_ids field is
removed and flattened to external_id_0_k, and the pre-existing detail_a
field with value 9 is overwritten by the detail value 1, so neither of
those fields survives unchanged. -/
theorem c7_counterexample_fields_not_preserved :
    flatten_record c7Rec =
      [("detail_a", JValue.num 1), ("detail_b", JValue.num 2),
       ("external_id_0_k", JValue.str "v")] ∧
    List.lookup "external_ids" c7Rec =
      some (JValue.arr [JValue.obj [("k", JValue.str "v")]]) ∧
    List.lookup "external_ids" (flatten_record c7Rec) = none ∧
    List.lookup "detail_a" c7Rec = some (JValue.num 9) ∧
    List.lookup "detail_a" (flatten_record c7Rec) = some (JValue.num 1) ∧
    List.lookup "external_id_0_k" (flatten_record c7Rec) =
      some (JValue.str "v") ∧
    List.lookup "external_ids" (flatten_record c7Rec) ≠
      List.lookup "external_ids" c7Rec ∧
    List.lookup "detail_a" (flatten_record c7Rec) ≠
      List.lookup "detail_a" c7Rec := by
  refine ⟨rfl, rfl, rfl, rfl, rfl, rfl, ?_, ?_⟩
  · intro h
    rw [show List.lookup "external_ids" (flatten_record c7Rec) = none from rfl]
      at h
    exact Option.noConfusion h
  · intro h
    rw [show List.lookup "detail_a" (flatten_record c7Rec) =
        some (JValue.num 1) from rfl,
      show List.lookup "detail_a" c7Rec = some (JValue.num 9) from rfl] at h
    have h2 := Option.some.inj h
    injection h2 with h3
    exact absurd h3 (by decide)

/-- C7 (amended): for a record with unique keys whose detail field is a
mapping with two distinct keys a and b, which carries no list-valued
external_ids field and no pre-existing detail_a or detail_b key, flatten
replaces detail by exactly detail_a and detail_b (appended in order), joins
list values into comma-delimited strings, and passes every other field
through unchanged. -/
theorem c7_flatten_two_key_detail :
    ∀ (r : Record) (a b : String) (va vb : JValue),
      (keysOf r).Nodup →
      List.lookup "detail" r = some (JValue.obj [(a, va), (b, vb)]) →
      a ≠ b →
      ("detail_" ++ a) ∉ keysOf r →
      ("detail_" ++ b) ∉ keysOf r →
      (match List.lookup "external_ids" r with
        | some (JValue.arr _) => False
        | _ => True) →
      keysOf (flatten_record r) =
        ((keysOf r).erase "detail") ++ ["detail_" ++ a, "detail_" ++ b] ∧
      List.lookup "detail" (flatten_record r) = none ∧
      List.lookup ("detail_" ++ a) (flatten_record r) =
        some (joinIfList va) ∧
      List.lookup ("detail_" ++ b) (flatten_record r) =
        some (joinIfList vb) ∧
      (∀ k : String, k ≠ "detail" → k ≠ "detail_" ++ a →
        k ≠ "detail_" ++ b →
        List.lookup k (flatten_record r) = List.lookup k r) := by
  intro r a b va vb hnd hd hab ha hb hext
  have hba : ("detail_" ++ b) ≠ ("detail_" ++ a) :=
    fun hq => hab (detailKey_inj hq).symm
  have hlk : List.lookup "external_ids"
      (assocSet (assocSet (popKey r "detail") ("detail_" ++ a)
        (joinIfList va)) ("detail_" ++ b) (joinIfList vb)) =
      List.lookup "external_ids" r := by
    rw [lookup_assocSet_ne _ _ _ _ (Ne.symm (detailKey_ne_external b)),
      lookup_assocSet_ne _ _ _ _ (Ne.symm (detailKey_ne_external a)),
      lookup_popKey_ne _ _ _ (by decide)]
  have hflat : flatten_record r =
      assocSet (assocSet (popKey r "detail") ("detail_" ++ a)
        (joinIfList va)) ("detail_" ++ b) (joinIfList vb) := by
    simp only [flatten_record]
    rw [hd]
    simp only [List.foldl_cons, List.foldl_nil]
    rw [hlk]
    rcases hx : List.lookup "external_ids" r with _ | v
    · rfl
    · rcases v with s | n | bo | _ | fs | es
      · rfl
      · rfl
      · rfl
      · rfl
      · rfl
      · rw [hx] at hext
        exact (hext : False).elim
  have hda_not : ("detail_" ++ a) ∉ keysOf (popKey r "detail") := by
    rw [keysOf_popKey]
    intro hmem
    exact ha (List.mem_of_mem_erase hmem)
  have h1 : keysOf (assocSet (popKey r "detail") ("detail_" ++ a)
      (joinIfList va)) = ((keysOf r).erase "detail") ++ ["detail_" ++ a] := by
    rw [keysOf_assocSet_of_not_mem _ _ _ hda_not, keysOf_popKey]
  have hdb_not : ("detail_" ++ b) ∉ keysOf (assocSet (popKey r "detail")
      ("detail_" ++ a) (joinIfList va)) := by
    rw [h1]
    intro hmem
    rcases List.mem_append.mp hmem with hm | hm
    · exact hb (List.mem_of_mem_erase hm)
    · exact hba (List.mem_singleton.mp hm)
  refine ⟨?_, ?_, ?_, ?_, ?_⟩
  · rw [hflat, keysOf_assocSet_of_not_mem _ _ _ hdb_not, h1,
      List.append_assoc]
    rfl
  · rw [hflat,
      lookup_assocSet_ne _ _ _ _ (Ne.symm (detailKey_ne_detail b)),
      lookup_assocSet_ne _ _ _ _ (Ne.symm (detailKey_ne_detail a))]
    exact lookup_popKey_self r "detail" hnd
  · rw [hflat, lookup_assocSet_ne _ _ _ _ (Ne.symm hba),
      lookup_assocSet_self]
  · rw [hflat, lookup_assocSet_self]
  · intro k hk1 hk2 hk3
    rw [hflat, lookup_assocSet_ne _ _ _ _ hk3,
      lookup_assocSet_ne _ _ _ _ hk2, lookup_popKey_ne _ _ _ hk1]

/-- Witness record for the amended C7: an id field, a detail mapping with
a scalar and a list value. -/
def c7WRec : Record :=
  [("id", JValue.str "1"),
   ("detail", JValue.obj
     [("a", JValue.num 1),
      ("b", JValue.arr [JValue.str "x", JValue.str "y"])])]

/-- Witness for the amended C7 on a concrete record: detail is replaced by
detail_a and detail_b, the list value is joined to a comma-delimited
string, and the id field is untouched. -/
theorem c7_flatten_two_key_detail_witness :
    keysOf (flatten_record c7WRec) =
      ((keysOf c7WRec).erase "detail") ++ ["detail_" ++ "a", "detail_" ++ "b"] ∧
    List.lookup ("detail_" ++ "b") (flatten_record c7WRec) =
      some (joinIfList (JValue.arr [JValue.str "x", JValue.str "y"])) ∧
    List.lookup "id" (flatten_record c7WRec) = List.lookup "id" c7WRec :=
  ⟨(c7_flatten_two_key_detail c7WRec "a" "b" (JValue.num 1)
      (JValue.arr [JValue.str "x", JValue.str "y"]) (by decide) rfl
      (by decide) (by decide) (by decide) (by exact trivial)).1,
   (c7_flatten_two_key_detail c7WRec "a" "b" (JValue.num 1)
      (JValue.arr [JValue.str "x", JValue.str "y"]) (by decide) rfl
      (by decide) (by decide) (by decide) (by exact trivial)).2.2.2.1,
   (c7_flatten_two_key_detail c7WRec "a" "b" (JValue.num 1)
      (JValue.arr [JValue.str "x", JValue.str "y"]) (by decide) rfl
      (by decide) (by decide) (by decide) (by exact trivial)).2.2.2.2 "id"
     (by decide) (by decide) (by decide)⟩

/-- A dict write preserves the heap length. -/
theorem heapDictWrite_length (h : Heap) (a : Addr) (k : String) (v : HVal) :
    (heapDictWrite h a k v).length = h.length := by
  unfold heapDictWrite
  rcases hx : h[a]? with _ | o
  · rfl
  · rcases o with fs | es
    · exact List.length_set h a _
    · rfl

/-- A dict write changes no address but its target. -/
theorem getElem?_heapDictWrite_ne (h : Heap) (a : Addr) (k : String)
    (v : HVal) (b : Nat) (hb : b ≠ a) :
    (heapDictWrite h a k v)[b]? = h[b]? := by
  unfold heapDictWrite
  rcases hx : h[a]? with _ | o
  · rfl
  · rcases o with fs | es
    · exact List.getElem?_set_ne (Ne.symm hb)
    · rfl

/-- A dict pop preserves the heap length. -/
theorem heapDictPop_length (h : Heap) (a : Addr) (k : String) :
    (heapDictPop h a k).length = h.length := by
  unfold heapDictPop
  rcases hx : h[a]? with _ | o
  · rfl
  · rcases o with fs | es
    · exact List.length_set h a _
    · rfl

/-- A dict pop changes no address but its target. -/
theorem getElem?_heapDictPop_ne (h : Heap) (a : Addr) (k : String)
    (b : Nat) (hb : b ≠ a) :
    (heapDictPop h a k)[b]? = h[b]? := by
  unfold heapDictPop
  rcases hx : h[a]? with _ | o
  · rfl
  · rcases o with fs | es
    · exact List.getElem?_set_ne (Ne.symm hb)
    · rfl

/-- Folding heap operations that each preserve length and every address
other than `a` preserves both as well. -/
theorem foldl_heap_preserve {α : Type} (f : Heap → α → Heap) (a : Addr)
    (hlen : ∀ (h : Heap) (x : α), (f h x).length = h.length)
    (hget : ∀ (h : Heap) (x : α) (b : Nat), b ≠ a → (f h x)[b]? = h[b]?) :
    ∀ (l : List α) (h : Heap),
      (l.foldl f h).length = h.length ∧
      ∀ b : Nat, b ≠ a → (l.foldl f h)[b]? = h[b]? := by
  intro l
  induction l with
  | nil => intro h; exact ⟨rfl, fun b _ => rfl⟩
  | cons x xs ih =>
    intro h
    rw [List.foldl_cons]
    exact ⟨(ih (f h x)).1.trans (hlen h x),
      fun b hb => ((ih (f h x)).2 b hb).trans (hget h x b hb)⟩

/-- A detail-loop iteration writes only the flat dict. -/
theorem detailWriteStep_frame (flat : Addr) (acc : Heap) (p : String × HVal) :
    (detailWriteStep flat acc p).length = acc.length ∧
    ∀ b : Nat, b ≠ flat → (detailWriteStep flat acc p)[b]? = acc[b]? := by
  unfold detailWriteStep
  exact ⟨heapDictWrite_length acc flat _ _,
    fun b hb => getElem?_heapDictWrite_ne acc flat _ _ b hb⟩

/-- An external-ids iteration writes only the flat dict. -/
theorem extWriteStep_frame (flat : Addr) (acc : Heap) (ie : Nat × HVal) :
    (extWriteStep flat acc ie).length = acc.length ∧
    ∀ b : Nat, b ≠ flat → (extWriteStep flat acc ie)[b]? = acc[b]? := by
  unfold extWriteStep
  split
  · split
    · exact foldl_heap_preserve _ flat
        (fun h2 x => heapDictWrite_length h2 flat _ _)
        (fun h2 x b hb => getElem?_heapDictWrite_ne h2 flat _ _ b hb)
        _ acc
    · exact ⟨rfl, fun b _ => rfl⟩
  · exact ⟨rfl, fun b _ => rfl⟩

/-- The detail phase writes only the flat dict. -/
theorem flattenDetailPhase_frame (h : Heap) (flat : Addr) :
    (flattenDetailPhase h flat).length = h.length ∧
    ∀ b : Nat, b ≠ flat → (flattenDetailPhase h flat)[b]? = h[b]? := by
  unfold flattenDetailPhase
  split
  · split
    · rename_i xo dfields hfs
      have hp := foldl_heap_preserve (detailWriteStep flat) flat
        (fun hh x => (detailWriteStep_frame flat hh x).1)
        (fun hh x b hb => (detailWriteStep_frame flat hh x).2 b hb)
        dfields (heapDictPop h flat "detail")
      exact ⟨hp.1.trans (heapDictPop_length h flat "detail"),
        fun b hb => (hp.2 b hb).trans
          (getElem?_heapDictPop_ne h flat "detail" b hb)⟩
    · exact ⟨rfl, fun b _ => rfl⟩
  · exact ⟨rfl, fun b _ => rfl⟩

/-- The external-ids phase writes only the flat dict. -/
theorem flattenExternalPhase_frame (h : Heap) (flat : Addr) :
    (flattenExternalPhase h flat).length = h.length ∧
    ∀ b : Nat, b ≠ flat → (flattenExternalPhase h flat)[b]? = h[b]? := by
  unfold flattenExternalPhase
  split
  · split
    · rename_i xo exts hexts
      have hp := foldl_heap_preserve (extWriteStep flat) flat
        (fun hh x => (extWriteStep_frame flat hh x).1)
        (fun hh x b hb => (extWriteStep_frame flat hh x).2 b hb)
        exts.enum (heapDictPop h flat "external_ids")
      exact ⟨hp.1.trans (heapDictPop_length h flat "external_ids"),
        fun b hb => (hp.2 b hb).trans
          (getElem?_heapDictPop_ne h flat "external_ids" b hb)⟩
    · exact ⟨rfl, fun b _ => rfl⟩
  · exact ⟨rfl, fun b _ => rfl⟩

/-- C10: flatten allocates a fresh dict for its result and never mutates
its argument or any other pre-existing object: every address below the old
heap length reads the same afterwards, and in particular the record itself
still holds all its original entries. -/
theorem c10_flatten_no_mutation :
    ∀ (h : Heap) (r : Addr) (fields : List (String × HVal)),
      h[r]? = some (HObj.odict fields) →
      (heapFlatten h r).2 = h.length ∧
      (∀ b : Nat, b < h.length → ((heapFlatten h r).1)[b]? = h[b]?) ∧
      ((heapFlatten h r).1)[r]? = some (HObj.odict fields) := by
  intro h r fields hr
  have hrlen : r < h.length := by
    rcases List.getElem?_eq_some_iff.mp hr with ⟨hlt, _⟩
    exact hlt
  have hmain : ∀ b : Nat, b < h.length →
      ((heapFlatten h r).1)[b]? = h[b]? := by
    intro b hb
    have hbne : b ≠ h.length := by omega
    unfold heapFlatten
    rw [hr]
    have h1 : (h ++ [HObj.odict fields])[b]? = h[b]? :=
      List.getElem?_append_left hb
    have hd := flattenDetailPhase_frame (h ++ [HObj.odict fields]) h.length
    have he := flattenExternalPhase_frame
      (flattenDetailPhase (h ++ [HObj.odict fields]) h.length) h.length
    exact ((he.2 b hbne).trans (hd.2 b hbne)).trans h1
  refine ⟨?_, hmain, ?_⟩
  · unfold heapFlatten
    rw [hr]
  · rw [hmain r hrlen]
    exact hr

/-- A concrete heap: the record at address 0 references a detail dict at
address 1. -/
def c10Heap : Heap :=
  [HObj.odict [("detail", HVal.vref 1), ("x", HVal.vint 7)],
   HObj.odict [("a", HVal.vint 1)]]

/-- Witness for C10 on the concrete heap: the fresh copy goes to address 2
and addresses 0 and 1 are untouched. -/
theorem c10_flatten_no_mutation_witness :
    (heapFlatten c10Heap 0).2 = 2 ∧
    ((heapFlatten c10Heap 0).1)[1]? = some (HObj.odict [("a", HVal.vint 1)]) ∧
    ((heapFlatten c10Heap 0).1)[0]? =
      some (HObj.odict [("detail", HVal.vref 1), ("x", HVal.vint 7)]) :=
  ⟨(c10_flatten_no_mutation c10Heap 0
      [("detail", HVal.vref 1), ("x", HVal.vint 7)] rfl).1,
   by
    rw [(c10_flatten_no_mutation c10Heap 0
      [("detail", HVal.vref 1), ("x", HVal.vint 7)] rfl).2.1 1 (by decide)]
    rfl,
   (c10_flatten_no_mutation c10Heap 0
      [("detail", HVal.vref 1), ("x", HVal.vint 7)] rfl).2.2⟩

end Moveworks
